import Mathlib

/-
Verification of the RenderScript support-library JNI dispatch layer
(android_renderscript_RenderScript.cpp).

Each JNI wrapper is shallowly embedded as a pure Lean function that returns
the sequence of backend entry-point invocations it performs (and its return
value, when it has one).  Two dispatch tables exist in the source: the
primary table (dispatchTab) and the incremental table (dispatchTabInc);
calls record which table they went through.  Backend entry points that live
in the separately loaded libraries (libRS / libRSSupport) are external to
the translated file; where a claim depends on their behaviour they are
modelled from the design document and marked as such in their doc comment.
-/

-- ---------------------------------------------------------------------------
-- Dispatch tables
-- ---------------------------------------------------------------------------

/-- Which of the two process-wide dispatch tables a backend call went
through: the primary table (dispatchTab) or the incremental table
(dispatchTabInc). -/
inductive Tab where
  | primary
  | inc
deriving DecidableEq

-- ---------------------------------------------------------------------------
-- ForEach wrappers (nScriptForEach / V / Clipped / ClippedV)
-- ---------------------------------------------------------------------------

/-- A backend call made by one of the four ForEach JNI wrappers: either a
ContextFinish fence on a context, or a ScriptForEach kernel invocation with
optional byte parameters and optional clip rectangle. -/
inductive FECall where
  | finish (t : Tab) (con : Nat)
  | forEach (t : Tab) (con script : Nat) (slot : Int) (ain aout : Nat)
      (params : Option (List Int)) (clip : Option (List Int))
deriving DecidableEq

/-- Embedding of nScriptForEach: with mUseInc it fences con on the primary
table, runs the kernel on the incremental table over incCon, then fences
incCon on the incremental table. -/
def nScriptForEach (con incCon script : Nat) (slot : Int) (ain aout : Nat)
    (mUseInc : Bool) : List FECall :=
  if mUseInc then
    [FECall.finish Tab.primary con,
     FECall.forEach Tab.inc incCon script slot ain aout none none,
     FECall.finish Tab.inc incCon]
  else
    [FECall.forEach Tab.primary con script slot ain aout none none]

/-- Embedding of nScriptForEachV (ForEach with a byte-array parameter
payload); same fence structure as nScriptForEach. -/
def nScriptForEachV (con incCon script : Nat) (slot : Int) (ain aout : Nat)
    (params : List Int) (mUseInc : Bool) : List FECall :=
  if mUseInc then
    [FECall.finish Tab.primary con,
     FECall.forEach Tab.inc incCon script slot ain aout (some params) none,
     FECall.finish Tab.inc incCon]
  else
    [FECall.forEach Tab.primary con script slot ain aout (some params) none]

/-- Embedding of nScriptForEachClipped (ForEach with a clip rectangle);
same fence structure as nScriptForEach. -/
def nScriptForEachClipped (con incCon script : Nat) (slot : Int) (ain aout : Nat)
    (xstart xend ystart yend zstart zend : Int) (mUseInc : Bool) : List FECall :=
  if mUseInc then
    [FECall.finish Tab.primary con,
     FECall.forEach Tab.inc incCon script slot ain aout none
       (some [xstart, xend, ystart, yend, zstart, zend]),
     FECall.finish Tab.inc incCon]
  else
    [FECall.forEach Tab.primary con script slot ain aout none
       (some [xstart, xend, ystart, yend, zstart, zend])]

/-- Embedding of nScriptForEachClippedV.  In the source the trailing fence
of the mUseInc branch is dispatchTabInc.ContextFinish((RsContext)(RsContext)con)
(line 1188): it drains con, not incCon, unlike the three sibling variants. -/
def nScriptForEachClippedV (con incCon script : Nat) (slot : Int) (ain aout : Nat)
    (params : List Int) (xstart xend ystart yend zstart zend : Int)
    (mUseInc : Bool) : List FECall :=
  if mUseInc then
    [FECall.finish Tab.primary con,
     FECall.forEach Tab.inc incCon script slot ain aout (some params)
       (some [xstart, xend, ystart, yend, zstart, zend]),
     FECall.finish Tab.inc con]
  else
    [FECall.forEach Tab.primary con script slot ain aout (some params)
       (some [xstart, xend, ystart, yend, zstart, zend])]

-- ---------------------------------------------------------------------------
-- Messaging channel (nContextSendMessage)
-- ---------------------------------------------------------------------------

/-- The single backend invocation made by nContextSendMessage:
ContextSendMessage(con, id, ptr, lenBytes).  The payload pointer is an
Option: none models a NULL pointer. -/
structure SendMessageCall where
  con : Nat
  id : Int
  ptr : Option (List Int)
  lenBytes : Nat
deriving DecidableEq

/-- Embedding of nContextSendMessage.  The source declares an outer
pointer initialised to NULL; inside the data branch it declares a NEW inner
pointer of the same identifier (C block-scope shadowing), so the outer
pointer handed to ContextSendMessage stays NULL while the length is taken
from the array. -/
def nContextSendMessage (con : Nat) (msgId : Int) (data : Option (List Int)) :
    SendMessageCall :=
  let ptr : Option (List Int) := none
  let len : Nat :=
    match data with
    | some d => d.length
    | none => 0
  { con := con, id := msgId, ptr := ptr, lenBytes := len * 4 }

-- ---------------------------------------------------------------------------
-- Backend activation (nLoadSO / nIncLoadSO)
-- ---------------------------------------------------------------------------

/-- A resolved capability table: entry-point name to resolved address. -/
abbrev CapTable := String → Option Nat

/-- The environment supplied by the dynamic loader: which library names can
be opened, which symbols each opened library exports, and the fixed set of
required entry points. -/
structure LibEnv where
  dlopen : String → Option Nat
  syms : Nat → String → Option Nat
  required : List String

/-- The two process-wide dispatch-table slots; none means not yet bound. -/
structure DispatchState where
  dispatchTab : Option CapTable
  dispatchTabInc : Option CapTable

/-- Modelled from the spec: loadSymbols lives in rsDispatch, which is not
part of the translated file.  Per the activation contract it resolves the
fixed, enumerated set of required entry points against the opened library
and is all-or-nothing: it yields the full table only when every required
entry point resolves, and yields nothing (touching no state) otherwise. -/
def loadSymbols (env : LibEnv) (h : Nat) : Option CapTable :=
  if env.required.all (fun s => (env.syms h s).isSome) then
    some (fun s => env.syms h s)
  else
    none

/-- The library name nLoadSO opens: libRS.so when useNative, else
libRSSupport.so. -/
def libName (useNative : Bool) : String :=
  if useNative then "libRS.so" else "libRSSupport.so"

/-- Embedding of nLoadSO: open the named library, resolve symbols into the
primary dispatch table; on either failure report false. -/
def nLoadSO (env : LibEnv) (useNative : Bool) (st : DispatchState) :
    Bool × DispatchState :=
  match env.dlopen (libName useNative) with
  | none => (false, st)
  | some h =>
    match loadSymbols env h with
    | none => (false, st)
    | some tab => (true, { st with dispatchTab := some tab })

/-- Embedding of nIncLoadSO: open libRSSupport.so and resolve symbols into
the incremental dispatch table; on either failure report false. -/
def nIncLoadSO (env : LibEnv) (st : DispatchState) : Bool × DispatchState :=
  match env.dlopen "libRSSupport.so" with
  | none => (false, st)
  | some h =>
    match loadSymbols env h with
    | none => (false, st)
    | some tab => (true, { st with dispatchTabInc := some tab })

/-- A loader environment in which no library opens. -/
def envNone : LibEnv :=
  { dlopen := fun _ => none, syms := fun _ _ => none,
    required := ["ContextCreate"] }

/-- A loader environment in which every library opens and every symbol
resolves. -/
def envOk : LibEnv :=
  { dlopen := fun _ => some 1, syms := fun _ _ => some 7,
    required := ["ContextCreate", "ContextFinish"] }

/-- The initial dispatch state: neither table bound. -/
def st0 : DispatchState := { dispatchTab := none, dispatchTabInc := none }

-- ---------------------------------------------------------------------------
-- nElementCreate2
-- ---------------------------------------------------------------------------

/-- The backend ElementCreate2 invocation: sub-element ids, names, array
sizes and the field count passed down. -/
structure EC2Call where
  con : Nat
  ids : List Nat
  names : List String
  arraySizes : List Int
  fieldCount : Nat
deriving DecidableEq

/-- Result of the nElementCreate2 wrapper: either the backend is invoked,
or the wrapper reads one of the parallel arrays out of bounds (undefined
behaviour in the source). -/
inductive EC2Result where
  | created (c : EC2Call)
  | undefinedRead
deriving DecidableEq

/-- Embedding of nElementCreate2.  The field count is the length of the
ids array; the first fieldCount entries of the names and arraySizes arrays
are read with no length validation whatsoever, so a shorter names or
arraySizes array is an out-of-bounds read, and a longer one has its tail
silently ignored. -/
def nElementCreate2 (con : Nat) (ids : List Nat) (names : List String)
    (arraySizes : List Int) : EC2Result :=
  let fieldCount := ids.length
  if names.length < fieldCount ∨ arraySizes.length < fieldCount then
    EC2Result.undefinedRead
  else
    EC2Result.created
      { con := con, ids := ids, names := names.take fieldCount,
        arraySizes := arraySizes.take fieldCount, fieldCount := fieldCount }

-- ---------------------------------------------------------------------------
-- nClosureCreate
-- ---------------------------------------------------------------------------

/-- The backend ClosureCreate invocation: every buffer and its declared
length as passed down. -/
structure ClosureCreateCall where
  con : Nat
  kernelID : Nat
  returnValue : Nat
  fieldIDs : List Int
  values : List Int
  sizes : List Int
  depClosures : List Int
  depClosuresLen : Nat
  depFieldIDs : List Int
  depFieldIDsLen : Nat
deriving DecidableEq

/-- Embedding of nClosureCreate.  The dep-field-id stack buffer is
allocated with length depFieldIDArray.length, but the copy loop in the
source (line 183) runs only to depClosureArray.length, so cells at indices
at or beyond depClosureArray.length keep their uninitialised stack
contents, modelled by the garbage parameter. -/
def nClosureCreate (garbage : Nat → Int) (con kernelID returnValue : Nat)
    (fieldIDArray valueArray sizeArray depClosureArray depFieldIDArray : List Int) :
    ClosureCreateCall :=
  let depFieldIDs :=
    (List.range depFieldIDArray.length).map
      (fun i => if i < depClosureArray.length then depFieldIDArray.getD i 0
                else garbage i)
  { con := con, kernelID := kernelID, returnValue := returnValue,
    fieldIDs := fieldIDArray, values := valueArray, sizes := sizeArray,
    depClosures := depClosureArray, depClosuresLen := depClosureArray.length,
    depFieldIDs := depFieldIDs, depFieldIDsLen := depFieldIDArray.length }

-- ---------------------------------------------------------------------------
-- 64-bit allocation write / read pair (nAllocationData1D_l / nAllocationRead_l)
-- ---------------------------------------------------------------------------

/-- Little-endian byte serialisation of one 64-bit element of a Java long
array. -/
def bytesOfLong (x : Nat) : List Nat :=
  [x % 256, x / 256 % 256, x / 65536 % 256, x / 16777216 % 256,
   x / 4294967296 % 256, x / 1099511627776 % 256,
   x / 281474976710656 % 256, x / 72057594037927936 % 256]

/-- Reassemble 64-bit elements from a little-endian byte sequence. -/
def longsOfBytes : List Nat → List Nat
  | b0 :: b1 :: b2 :: b3 :: b4 :: b5 :: b6 :: b7 :: rest =>
      (b0 + 256 * (b1 + 256 * (b2 + 256 * (b3 + 256 * (b4 + 256 *
        (b5 + 256 * (b6 + 256 * b7))))))) :: longsOfBytes rest
  | _ => []

/-- Modelled from the spec: the backend entry point Allocation1DData (in
the loaded library, not in the translated file) moves sizeBytes raw bytes
from the host buffer into the allocation; modelled here at range start 0,
which is the range the claims exercise. -/
def backendAllocation1DData (mem : List Nat) (offset lod count : Nat)
    (src : List Nat) (sizeBytes : Nat) : List Nat :=
  src.take sizeBytes ++ mem.drop sizeBytes

/-- Modelled from the spec: the backend entry point AllocationRead copies
exactly the caller-declared number of bytes from the allocation into the
host buffer, leaving the rest of the buffer untouched; the declared length
is trusted. -/
def backendAllocationRead (mem : List Nat) (buf : List Nat) (size : Nat) :
    List Nat :=
  (mem.take size ++ buf.drop size).take buf.length

/-- Embedding of nAllocationData1D_l: serialises the long array and hands
the caller-declared sizeBytes to the backend write. -/
def nAllocationData1D_l (mem : List Nat) (offset lod count : Nat)
    (data : List Nat) (sizeBytes : Nat) : List Nat :=
  backendAllocation1DData mem offset lod count
    ((data.map bytesOfLong).flatten) sizeBytes

/-- Embedding of nAllocationRead_l.  The source requests
length * sizeof(int) bytes, i.e. 4 bytes per long element, not 8. -/
def nAllocationRead_l (mem : List Nat) (data : List Nat) : List Nat :=
  longsOfBytes
    (backendAllocationRead mem ((data.map bytesOfLong).flatten) (data.length * 4))

-- ---------------------------------------------------------------------------
-- 1D/2D/3D int write wrappers (nAllocationData1D_i / 2D_i / 3D_i)
-- ---------------------------------------------------------------------------

/-- One backend transfer invocation as issued by a Data1D/2D/3D wrapper:
the dim-address components, the extent (count, or width/height/depth), the
host data and the caller-declared sizeBytes, all exactly as received. -/
structure XferCall where
  con : Nat
  alloc : Nat
  address : List Int
  extent : List Nat
  data : List Int
  sizeBytes : Int
deriving DecidableEq

/-- Embedding of nAllocationData1D_i: one unconditional backend transfer
forwarding every caller parameter; no size validation. -/
def nAllocationData1D_i (con alloc : Nat) (offset lod : Int) (count : Nat)
    (data : List Int) (sizeBytes : Int) : List XferCall :=
  [{ con := con, alloc := alloc, address := [offset, lod], extent := [count],
     data := data, sizeBytes := sizeBytes }]

/-- Embedding of nAllocationData2D_i: one unconditional backend transfer
forwarding every caller parameter; no size validation. -/
def nAllocationData2D_i (con alloc : Nat) (xoff yoff lod face : Int)
    (w h : Nat) (data : List Int) (sizeBytes : Int) : List XferCall :=
  [{ con := con, alloc := alloc, address := [xoff, yoff, lod, face],
     extent := [w, h], data := data, sizeBytes := sizeBytes }]

/-- Embedding of nAllocationData3D_i: one unconditional backend transfer
forwarding every caller parameter; no size validation. -/
def nAllocationData3D_i (con alloc : Nat) (xoff yoff zoff lod : Int)
    (w h d : Nat) (data : List Int) (sizeBytes : Int) : List XferCall :=
  [{ con := con, alloc := alloc, address := [xoff, yoff, zoff, lod],
     extent := [w, h, d], data := data, sizeBytes := sizeBytes }]

-- ---------------------------------------------------------------------------
-- Bitmap-backed operations
-- ---------------------------------------------------------------------------

/-- The backend operation a bitmap wrapper may invoke while the pixel
buffer is locked. -/
inductive BmpOp where
  | createFromBitmap
  | cubeCreateFromBitmap
  | copyToBitmap
deriving DecidableEq

/-- An observable step of a bitmap wrapper: locking the external pixel
buffer, a backend call over the locked pixels, or unlocking the buffer. -/
inductive BmpEvent where
  | lock
  | backend (op : BmpOp)
  | unlock
deriving DecidableEq

/-- Embedding of nAllocationCreateFromBitmap.  The pixels argument is the
pointer produced by the lock (none models a NULL result); backendRet is
the handle the backend creation returns.  On the null-pixels path the
wrapper returns the zero sentinel without a backend call and without an
unlock. -/
def nAllocationCreateFromBitmap (backendRet : Nat) (pixels : Option (List Nat)) :
    List BmpEvent × Nat :=
  match pixels with
  | some _ =>
      ([BmpEvent.lock, BmpEvent.backend BmpOp.createFromBitmap, BmpEvent.unlock],
       backendRet)
  | none => ([BmpEvent.lock], 0)

/-- Embedding of nAllocationCubeCreateFromBitmap; same lock discipline as
nAllocationCreateFromBitmap. -/
def nAllocationCubeCreateFromBitmap (backendRet : Nat)
    (pixels : Option (List Nat)) : List BmpEvent × Nat :=
  match pixels with
  | some _ =>
      ([BmpEvent.lock, BmpEvent.backend BmpOp.cubeCreateFromBitmap,
        BmpEvent.unlock], backendRet)
  | none => ([BmpEvent.lock], 0)

/-- Embedding of nAllocationCopyToBitmap (void return); same lock
discipline as the creations. -/
def nAllocationCopyToBitmap (pixels : Option (List Nat)) : List BmpEvent :=
  match pixels with
  | some _ => [BmpEvent.lock, BmpEvent.backend BmpOp.copyToBitmap, BmpEvent.unlock]
  | none => [BmpEvent.lock]

-- ---------------------------------------------------------------------------
-- mUseInc dispatch selection (nScriptSetVarI / nScriptKernelIDCreate /
-- nScriptFieldIDCreate)
-- ---------------------------------------------------------------------------

/-- One Script operation dispatched through a capability table: which
table, the context, the script handle and the remaining scalar arguments. -/
structure ScriptDispatch where
  table : Tab
  con : Nat
  script : Nat
  args : List Int
deriving DecidableEq

/-- Embedding of nScriptSetVarI: incremental table when mUseInc, primary
otherwise. -/
def nScriptSetVarI (con script : Nat) (slot val : Int) (mUseInc : Bool) :
    ScriptDispatch :=
  if mUseInc then
    { table := Tab.inc, con := con, script := script, args := [slot, val] }
  else
    { table := Tab.primary, con := con, script := script, args := [slot, val] }

/-- Embedding of nScriptKernelIDCreate: incremental table when mUseInc,
primary otherwise. -/
def nScriptKernelIDCreate (con sid : Nat) (slot sig : Int) (mUseInc : Bool) :
    ScriptDispatch :=
  if mUseInc then
    { table := Tab.inc, con := con, script := sid, args := [slot, sig] }
  else
    { table := Tab.primary, con := con, script := sid, args := [slot, sig] }

/-- Embedding of nScriptFieldIDCreate.  In the source (lines 1277-1281)
BOTH branches call dispatchTab.ScriptFieldIDCreate: the mUseInc branch
also goes through the primary table. -/
def nScriptFieldIDCreate (con sid : Nat) (slot : Int) (mUseInc : Bool) :
    ScriptDispatch :=
  if mUseInc then
    { table := Tab.primary, con := con, script := sid, args := [slot] }
  else
    { table := Tab.primary, con := con, script := sid, args := [slot] }

-- ---------------------------------------------------------------------------
-- nIncAllocationCreateTyped
-- ---------------------------------------------------------------------------

/-- A backend call made by nIncAllocationCreateTyped: the primary-table
AllocationGetPointer probe, or the incremental-table AllocationCreateTyped
over the obtained pointer. -/
inductive IncAllocCall where
  | primaryGetPointer (con alloc : Nat)
  | incCreateTyped (incCon typ ptr : Nat)
deriving DecidableEq

/-- Embedding of nIncAllocationCreateTyped.  getPtr is the pointer the
primary backend returns for the source allocation; createRet is the handle
the incremental backend returns.  A zero source handle short-circuits:
no backend call at all, zero sentinel returned. -/
def nIncAllocationCreateTyped (getPtr createRet : Nat)
    (con incCon alloc typ : Nat) : List IncAllocCall × Nat :=
  if alloc ≠ 0 then
    ([IncAllocCall.primaryGetPointer con alloc,
      IncAllocCall.incCreateTyped incCon typ getPtr], createRet)
  else
    ([], 0)

-- ---------------------------------------------------------------------------
-- Helper lemmas
-- ---------------------------------------------------------------------------

/-- A successfully resolved table resolves every required entry point. -/
lemma loadSymbols_resolves_all (env : LibEnv) (h : Nat) (tab : CapTable)
    (hls : loadSymbols env h = some tab) :
    ∀ s ∈ env.required, (tab s).isSome = true := by
  unfold loadSymbols at hls
  by_cases hc : env.required.all (fun s => (env.syms h s).isSome) = true
  · rw [if_pos hc] at hls
    intro s hs
    have htab : tab = fun s => env.syms h s := (Option.some.injEq _ _).mp hls.symm
    subst htab
    simpa using List.all_eq_true.mp hc s hs
  · rw [if_neg hc] at hls
    exact Option.noConfusion hls

-- ---------------------------------------------------------------------------
-- Theorems
-- ---------------------------------------------------------------------------

/-- Claim C1 (code bug): with mUseInc every ForEach variant must fence the
producing context con before the incremental kernel and fence the consumer
context incCon afterwards.  nScriptForEach does; but nScriptForEachClippedV
ends with a ContextFinish on con (here 1) through the incremental table,
not on incCon (here 2): the consumer context is never drained. -/
theorem scriptForEachClippedV_drains_wrong_context :
    nScriptForEach 1 2 3 4 5 6 true =
      [FECall.finish Tab.primary 1,
       FECall.forEach Tab.inc 2 3 4 5 6 none none,
       FECall.finish Tab.inc 2] ∧
    nScriptForEachClippedV 1 2 3 4 5 6 [9] 0 10 0 10 0 10 true =
      [FECall.finish Tab.primary 1,
       FECall.forEach Tab.inc 2 3 4 5 6 (some [9])
         (some [0, 10, 0, 10, 0, 10]),
       FECall.finish Tab.inc 1] ∧
    (1 : Nat) ≠ 2 :=
  ⟨rfl, rfl, by decide⟩

/-- Claim C2 (code bug): SendMessage(ctx 1, id 7, payload of three ints)
invokes the backend with byte length 12 as the claim says, but with a NULL
payload pointer: the inner pointer declaration shadows the outer one in
the source, so the payload bytes are never delivered. -/
theorem contextSendMessage_payload_is_null :
    nContextSendMessage 1 7 (some [1, 2, 3]) =
      { con := 1, id := 7, ptr := none, lenBytes := 12 } ∧
    (none : Option (List Int)) ≠ some [1, 2, 3] := by
  exact ⟨rfl, by decide⟩

/-- Claim C3 (confirmed, spec-modelled resolution): a failed activation,
whether the library fails to open or a required entry point fails to
resolve, leaves the dispatch state exactly as before; a retry with a
different backend name then behaves as from the pre-activation state; and
a successful activation binds a table in which every required entry point
resolves. -/
theorem loadSO_all_or_nothing (env : LibEnv) (st : DispatchState) (b b2 : Bool) :
    ((nLoadSO env b st).1 = false → (nLoadSO env b st).2 = st) ∧
    ((nIncLoadSO env st).1 = false → (nIncLoadSO env st).2 = st) ∧
    ((nLoadSO env b st).1 = false →
      nLoadSO env b2 (nLoadSO env b st).2 = nLoadSO env b2 st) ∧
    ((nLoadSO env b st).1 = true →
      ∃ tab, (nLoadSO env b st).2 = { st with dispatchTab := some tab } ∧
        ∀ s ∈ env.required, (tab s).isSome = true) := by
  refine ⟨?_, ?_, ?_, ?_⟩
  · cases hdl : env.dlopen (libName b) with
    | none => intro _; simp [nLoadSO, hdl]
    | some h =>
      cases hls : loadSymbols env h with
      | none => intro _; simp [nLoadSO, hdl, hls]
      | some tab => intro hfalse; simp [nLoadSO, hdl, hls] at hfalse
  · cases hdl : env.dlopen "libRSSupport.so" with
    | none => intro _; simp [nIncLoadSO, hdl]
    | some h =>
      cases hls : loadSymbols env h with
      | none => intro _; simp [nIncLoadSO, hdl, hls]
      | some tab => intro hfalse; simp [nIncLoadSO, hdl, hls] at hfalse
  · cases hdl : env.dlopen (libName b) with
    | none => intro _; simp [nLoadSO, hdl]
    | some h =>
      cases hls : loadSymbols env h with
      | none => intro _; simp [nLoadSO, hdl, hls]
      | some tab => intro hfalse; simp [nLoadSO, hdl, hls] at hfalse
  · cases hdl : env.dlopen (libName b) with
    | none => intro htrue; simp [nLoadSO, hdl] at htrue
    | some h =>
      cases hls : loadSymbols env h with
      | none => intro htrue; simp [nLoadSO, hdl, hls] at htrue
      | some tab =>
        intro _
        refine ⟨tab, by simp [nLoadSO, hdl, hls], ?_⟩
        exact loadSymbols_resolves_all env h tab hls

/-- Witness for loadSO_all_or_nothing: a loader in which nothing opens
leaves both tables untouched, and a loader in which everything resolves
yields a fully bound primary table. -/
theorem loadSO_all_or_nothing_witness :
    (nLoadSO envNone true st0).2 = st0 ∧
    (nIncLoadSO envNone st0).2 = st0 ∧
    (∃ tab, (nLoadSO envOk false st0).2 = { st0 with dispatchTab := some tab } ∧
      ∀ s ∈ envOk.required, (tab s).isSome = true) :=
  ⟨(loadSO_all_or_nothing envNone st0 true true).1 rfl,
   (loadSO_all_or_nothing envNone st0 true true).2.1 rfl,
   (loadSO_all_or_nothing envOk st0 false true).2.2.2 rfl⟩

/-- Claim C4 counterexample: a call whose ids array (length 1) disagrees
with the names and arraySizes arrays (length 2) does not fail with
SizeMismatch: the structured Element is still created, from the first
entry of each array. -/
theorem elementCreate2_mismatch_still_creates :
    ([5] : List Nat).length ≠ (["a", "b"] : List String).length ∧
    nElementCreate2 1 [5] ["a", "b"] [2, 3] =
      EC2Result.created
        { con := 1, ids := [5], names := ["a"], arraySizes := [2],
          fieldCount := 1 } := by
  exact ⟨by decide, rfl⟩

/-- Claim C4 as amended: nElementCreate2 performs no length-equality
validation and never fails with SizeMismatch; the field count is the ids
length, and whenever the three arrays have equal length the structured
Element is built from all entries of all three arrays. -/
theorem elementCreate2_equal_lengths_builds_all (con : Nat) (ids : List Nat)
    (names : List String) (sizes : List Int)
    (h1 : names.length = ids.length) (h2 : sizes.length = ids.length) :
    nElementCreate2 con ids names sizes =
      EC2Result.created
        { con := con, ids := ids, names := names, arraySizes := sizes,
          fieldCount := ids.length } := by
  have hn : names.take ids.length = names := by
    rw [← h1]; exact List.take_length _
  have hs : sizes.take ids.length = sizes := by
    rw [← h2]; exact List.take_length _
  have hcond : ¬(names.length < ids.length ∨ sizes.length < ids.length) := by
    omega
  simp [nElementCreate2, hcond, hn, hs]

/-- Witness for elementCreate2_equal_lengths_builds_all at a concrete
two-field call. -/
theorem elementCreate2_equal_lengths_builds_all_witness :
    nElementCreate2 1 [5, 6] ["x", "y"] [1, 2] =
      EC2Result.created
        { con := 1, ids := [5, 6], names := ["x", "y"], arraySizes := [1, 2],
          fieldCount := 2 } :=
  elementCreate2_equal_lengths_builds_all 1 [5, 6] ["x", "y"] [1, 2] rfl rfl

/-- Claim C5 (code bug): with depClosureArray empty and depFieldIDArray
equal to the single entry 7, the dep-field-id buffer handed to the backend
has the declared length 1, but its single cell holds uninitialised stack
memory (here modelled as 0), not the 7 from depFieldIDArray: the copy loop
runs to the length of the wrong array. -/
theorem closureCreate_depFieldIDs_garbage :
    (nClosureCreate (fun _ => 0) 1 2 3 [] [] [] [] [7]).depFieldIDs = [0] ∧
    (nClosureCreate (fun _ => 0) 1 2 3 [] [] [] [] [7]).depFieldIDsLen = 1 ∧
    (0 : Int) ≠ 7 :=
  ⟨rfl, rfl, by decide⟩

/-- Claim C6 (code bug): writing the long array with single element
4294967296 (8 bytes) and reading it back through the long-array Read
yields 0, not 4294967296: nAllocationRead_l asks the backend for
length times sizeof(int), i.e. 4 bytes per element, so the high half of
each long is never read back. -/
theorem allocationRead_l_truncates_roundtrip :
    nAllocationRead_l
        (nAllocationData1D_l (List.replicate 8 0) 0 0 1 [4294967296] 8)
        [0] = [0] ∧
    ([0] : List Nat) ≠ [4294967296] := by
  exact ⟨by decide, by decide⟩

/-- Claim C7 (code bug): with mUseInc true, nScriptKernelIDCreate and
nScriptSetVarI dispatch through the incremental table, but
nScriptFieldIDCreate still dispatches through the primary table: both of
its branches name dispatchTab. -/
theorem scriptFieldIDCreate_ignores_useInc :
    (nScriptFieldIDCreate 1 2 3 true).table = Tab.primary ∧
    (nScriptKernelIDCreate 1 2 3 4 true).table = Tab.inc ∧
    (nScriptSetVarI 1 2 3 4 true).table = Tab.inc ∧
    Tab.primary ≠ Tab.inc := by
  exact ⟨rfl, rfl, rfl, by decide⟩

/-- Claim C8 counterexample: a 1D int write whose declared sizeBytes 999
differs from elementCount 3 times the 4-byte int element size does not
fail with SizeMismatch: the backend transfer is invoked anyway, carrying
the mismatched size. -/
theorem allocationData_mismatch_still_transfers :
    ((999 : Int) ≠ 4 * 3) ∧
    nAllocationData1D_i 1 2 0 0 3 [1, 2, 3] 999 ≠ [] := by
  exact ⟨by decide, by decide⟩

/-- Claim C8 as amended: the 1D/2D/3D Write wrappers perform no byteSize
validation at all: even when the declared sizeBytes disagrees with
elementCount times the element size, each wrapper issues exactly one
backend transfer forwarding every caller parameter, sizeBytes included,
unchanged. -/
theorem allocationData_forwards_unvalidated (con alloc : Nat)
    (offset lod xoff yoff zoff face : Int) (count w h d : Nat)
    (data : List Int) (sizeBytes : Int)
    (hmismatch : sizeBytes ≠ 4 * (count : Int)) :
    nAllocationData1D_i con alloc offset lod count data sizeBytes =
      [{ con := con, alloc := alloc, address := [offset, lod],
         extent := [count], data := data, sizeBytes := sizeBytes }] ∧
    nAllocationData2D_i con alloc xoff yoff lod face w h data sizeBytes =
      [{ con := con, alloc := alloc, address := [xoff, yoff, lod, face],
         extent := [w, h], data := data, sizeBytes := sizeBytes }] ∧
    nAllocationData3D_i con alloc xoff yoff zoff lod w h d data sizeBytes =
      [{ con := con, alloc := alloc, address := [xoff, yoff, zoff, lod],
         extent := [w, h, d], data := data, sizeBytes := sizeBytes }] :=
  ⟨rfl, rfl, rfl⟩

/-- Witness for allocationData_forwards_unvalidated at the mismatched
sizeBytes 999 with count 3. -/
theorem allocationData_forwards_unvalidated_witness :
    nAllocationData1D_i 1 2 0 0 3 [1, 2, 3] 999 =
      [{ con := 1, alloc := 2, address := [0, 0], extent := [3],
         data := [1, 2, 3], sizeBytes := 999 }] :=
  (allocationData_forwards_unvalidated 1 2 0 0 0 0 0 0 3 1 1 1 [1, 2, 3] 999
    (by decide)).1

/-- Claim C9 counterexample: on the path where locking yields a null pixel
pointer, nAllocationCreateFromBitmap returns the zero sentinel without
ever emitting an unlock: the unlock sits inside the non-null branch in the
source. -/
theorem createFromBitmap_null_pixels_no_unlock :
    BmpEvent.unlock ∉ (nAllocationCreateFromBitmap 5 none).1 ∧
    (nAllocationCreateFromBitmap 5 none).2 = 0 := by
  exact ⟨by decide, rfl⟩

/-- Claim C9 as amended: every bitmap-backed creation or copy unlocks the
pixel buffer before returning on every path where the lock yielded a
non-null pixel pointer, with exactly one backend call in between; on the
null-pixel path it performs no backend call, emits no unlock, and a
creation returns the zero sentinel handle. -/
theorem bitmap_lock_unlock_discipline (r : Nat) (px : Option (List Nat)) :
    (∀ p, px = some p →
      nAllocationCreateFromBitmap r px =
        ([BmpEvent.lock, BmpEvent.backend BmpOp.createFromBitmap,
          BmpEvent.unlock], r) ∧
      nAllocationCubeCreateFromBitmap r px =
        ([BmpEvent.lock, BmpEvent.backend BmpOp.cubeCreateFromBitmap,
          BmpEvent.unlock], r) ∧
      nAllocationCopyToBitmap px =
        [BmpEvent.lock, BmpEvent.backend BmpOp.copyToBitmap, BmpEvent.unlock]) ∧
    (px = none →
      nAllocationCreateFromBitmap r px = ([BmpEvent.lock], 0) ∧
      nAllocationCubeCreateFromBitmap r px = ([BmpEvent.lock], 0) ∧
      nAllocationCopyToBitmap px = [BmpEvent.lock]) := by
  cases px with
  | none =>
    exact ⟨fun p hp => Option.noConfusion hp, fun _ => ⟨rfl, rfl, rfl⟩⟩
  | some q =>
    exact ⟨fun p _ => ⟨rfl, rfl, rfl⟩, fun hp => Option.noConfusion hp⟩

/-- Witness for bitmap_lock_unlock_discipline on both the locked and the
null-pixel paths. -/
theorem bitmap_lock_unlock_discipline_witness :
    nAllocationCreateFromBitmap 5 (some [1]) =
      ([BmpEvent.lock, BmpEvent.backend BmpOp.createFromBitmap,
        BmpEvent.unlock], 5) ∧
    nAllocationCreateFromBitmap 5 none = ([BmpEvent.lock], 0) ∧
    nAllocationCopyToBitmap none = [BmpEvent.lock] :=
  ⟨((bitmap_lock_unlock_discipline 5 (some [1])).1 [1] rfl).1,
   ((bitmap_lock_unlock_discipline 5 none).2 rfl).1,
   ((bitmap_lock_unlock_discipline 5 none).2 rfl).2.2⟩

/-- Claim C10 (confirmed): nIncAllocationCreateTyped with a zero source
allocation handle returns the zero sentinel having invoked no backend
entry point at all; with a non-zero handle it probes the primary table
for the pointer and returns whatever handle the incremental
AllocationCreateTyped yields over it. -/
theorem incAllocationCreateTyped_null_guard (getPtr createRet con incCon alloc typ : Nat) :
    (alloc = 0 →
      nIncAllocationCreateTyped getPtr createRet con incCon alloc typ = ([], 0)) ∧
    (alloc ≠ 0 →
      nIncAllocationCreateTyped getPtr createRet con incCon alloc typ =
        ([IncAllocCall.primaryGetPointer con alloc,
          IncAllocCall.incCreateTyped incCon typ getPtr], createRet)) := by
  constructor
  · intro h; simp [nIncAllocationCreateTyped, h]
  · intro h; simp [nIncAllocationCreateTyped, h]

/-- Witness for incAllocationCreateTyped_null_guard at a zero and a
non-zero source handle. -/
theorem incAllocationCreateTyped_null_guard_witness :
    nIncAllocationCreateTyped 5 9 1 2 0 3 = ([], 0) ∧
    nIncAllocationCreateTyped 5 9 1 2 4 3 =
      ([IncAllocCall.primaryGetPointer 1 4,
        IncAllocCall.incCreateTyped 2 3 5], 9) :=
  ⟨(incAllocationCreateTyped_null_guard 5 9 1 2 0 3).1 rfl,
   (incAllocationCreateTyped_null_guard 5 9 1 2 4 3).2 (by decide)⟩
